import Mathlib

/-!
Verification of the organism encounter model from `src/organism.h`.

The C++ source carries the diet capability flags `can_eat_meat` and
`can_eat_plants` as compile-time template parameters of `Organism`.  We
embed them as a runtime `Diet` record attached to each organism; every
function below is a direct transcription of the corresponding member of
`organism.h`.  Vitality is a `uint64_t` in the source, so additions that
the source performs on it are taken modulo `2^64`.
-/

/-- The modulus of `uint64_t` arithmetic. -/
def U64 : Nat := 2 ^ 64

/-- Addition of two `uint64_t` values: unsigned overflow wraps modulo `2^64`. -/
def add64 (a b : Nat) : Nat := (a + b) % U64

/-- The pair of capability flags carried by the `Organism` template:
`can_eat_meat` and `can_eat_plants`. -/
structure Diet where
  can_eat_meat : Bool
  can_eat_plants : Bool
deriving DecidableEq, Repr

/-- Transcription of `Organism::is_plant`: `!can_eat_meat && !can_eat_plants`. -/
def Diet.is_plant (d : Diet) : Bool := !d.can_eat_meat && !d.can_eat_plants

/-- Diet of the alias `Carnivore = Organism<species_t, true, false>`. -/
def carnivoreDiet : Diet := ⟨true, false⟩

/-- Diet of the alias `Omnivore = Organism<species_t, true, true>`. -/
def omnivoreDiet : Diet := ⟨true, true⟩

/-- Diet of the alias `Herbivore = Organism<species_t, false, true>`. -/
def herbivoreDiet : Diet := ⟨false, true⟩

/-- Diet of the alias `Plant = Organism<species_t, false, false>`. -/
def plantDiet : Diet := ⟨false, false⟩

/-- An organism value: species identifier, `uint64_t` vitality, and the diet
flags that the C++ source carries in the type of the organism. -/
structure Organism (species_t : Type) where
  species : species_t
  vitality : Nat
  diet : Diet
deriving DecidableEq, Repr

/-- Transcription of `Organism::is_dead`: `vitality == 0`. -/
def Organism.is_dead {s : Type} (o : Organism s) : Bool := o.vitality == 0

/-- The `this_can_eat` / `o_can_eat` computation of `Organism::eat`:
`o_is_plant ? can_eat_plants : can_eat_meat`, i.e. whether the diet of `self`
permits eating the kind of `o`. -/
def can_eat {s : Type} (self o : Organism s) : Bool :=
  if o.diet.is_plant then self.diet.can_eat_plants else self.diet.can_eat_meat

/-- Transcription of `Organism::eat` from `organism.h`.  The branch guarded by
`this_can_eat && o_is_plant` is the plant-absorption return; the branch
guarded by `this_can_eat && vitality > o.vitality` is the win-over-animal
return (reachable only when `o` is not a plant, since the plant case returned
already); the third branch is the death return; otherwise `self` is returned
unchanged.  Sums are `uint64_t` sums, hence `add64`. -/
def Organism.eat {s : Type} (self o : Organism s) : Organism s :=
  let this_is_plant := self.diet.is_plant
  let this_can_eat := can_eat self o
  let o_can_eat := can_eat o self
  if this_can_eat && o.diet.is_plant then
    ⟨self.species, add64 self.vitality o.vitality, self.diet⟩
  else if this_can_eat && decide (self.vitality > o.vitality) then
    ⟨self.species, add64 self.vitality (o.vitality / 2), self.diet⟩
  else if o_can_eat &&
      (this_is_plant || decide (o.vitality > self.vitality) ||
        (this_can_eat && (o.vitality == self.vitality))) then
    ⟨self.species, 0, self.diet⟩
  else self

/-- C++20 `std::midpoint` on unsigned integers: for `a <= b` it computes
`a + (b - a) / 2`, for `a > b` it computes `a - (a - b) / 2`; no intermediate
leaves the `uint64_t` range. -/
def std_midpoint (a b : Nat) : Nat :=
  if a ≤ b then a + (b - a) / 2 else a - (a - b) / 2

/-- Transcription of `Organism::breed`:
`{species, std::midpoint(std::min(v, o.v), std::max(v, o.v))}`. -/
def Organism.breed {s : Type} (self o : Organism s) : Organism s :=
  ⟨self.species,
    std_midpoint (min self.vitality o.vitality) (max self.vitality o.vitality),
    self.diet⟩

/-- The `requires (o1_eats_m || o1_eats_p || o2_eats_m || o2_eats_p)` clause on
`encounter`: at least one participant has some eating capability. -/
def encounter_valid {s : Type} (o1 o2 : Organism s) : Bool :=
  o1.diet.can_eat_meat || o1.diet.can_eat_plants ||
    o2.diet.can_eat_meat || o2.diet.can_eat_plants

/-- Transcription of `encounter` from `organism.h`: dead check first, then the
same-diet/same-species breeding branch, then mutual predation where each side
applies `eat` to the original value of the other. -/
def encounter {s : Type} [DecidableEq s] (o1 o2 : Organism s) :
    Organism s × Organism s × Option (Organism s) :=
  if o1.is_dead || o2.is_dead then (o1, o2, none)
  else if o1.diet = o2.diet ∧ o1.species = o2.species then
    (o1, o2, some (o1.breed o2))
  else (o1.eat o2, o2.eat o1, none)

/-- Transcription of `organism_operators::operator+`:
`get<0>(encounter(o1, o2))`. -/
def org_plus {s : Type} [DecidableEq s] (o1 o2 : Organism s) : Organism s :=
  (encounter o1 o2).1

/-- Transcription of `encounter_series`: the C++ left fold expression
`(organism1 + ... + args)` over `organism_operators::operator+`. -/
def encounter_series {s : Type} [DecidableEq s] (o1 : Organism s)
    (args : List (Organism s)) : Organism s :=
  args.foldl org_plus o1

/-- Modelled from the spec (§4.5), for the refinement claim C8: start with the
protagonist and, for each subsequent organism in order, replace the running
value `p` by the first component of `encounter p x`, discarding the resolved
`x` and any offspring. -/
def series_spec {s : Type} [DecidableEq s] (p : Organism s) :
    List (Organism s) → Organism s
  | [] => p
  | x :: xs => series_spec (encounter p x).1 xs

/-- The raw condition of the first returning branch of `Organism::eat` as seen
from `self`: `this_can_eat && (o_is_plant || vitality > o.vitality)`. -/
def eat_branch1 {s : Type} (self o : Organism s) : Bool :=
  can_eat self o && (o.diet.is_plant || decide (self.vitality > o.vitality))

/-- The raw condition of the death branch of `Organism::eat` as seen from
`self`: `o_can_eat && (this_is_plant || o.vitality > vitality ||
(this_can_eat && o.vitality == vitality))`. -/
def eat_branch2 {s : Type} (self o : Organism s) : Bool :=
  can_eat o self &&
    (self.diet.is_plant || decide (o.vitality > self.vitality) ||
      (can_eat self o && (o.vitality == self.vitality)))

/-- The midpoint of the smaller and the larger of two naturals is their floor
average; all intermediates of the computation stay below the larger input. -/
lemma std_midpoint_min_max (v1 v2 : Nat) :
    std_midpoint (min v1 v2) (max v1 v2) = (v1 + v2) / 2 := by
  unfold std_midpoint
  rcases Nat.le_total v1 v2 with h | h
  · simp only [Nat.min_eq_left h, Nat.max_eq_right h, if_pos h]
    omega
  · simp only [Nat.min_eq_right h, Nat.max_eq_left h, if_pos h]
    omega

/-- Claim C1, counterexample: a same-diet, same-species pair in which one
organism has vitality 0 yields no offspring, because the dead check of
`encounter` precedes the breeding branch. -/
theorem c1_counterexample :
    encounter (⟨0, 0, herbivoreDiet⟩ : Organism Nat) ⟨0, 5, herbivoreDiet⟩ ≠
      (⟨0, 0, herbivoreDiet⟩, ⟨0, 5, herbivoreDiet⟩,
        some (Organism.breed (⟨0, 0, herbivoreDiet⟩ : Organism Nat) ⟨0, 5, herbivoreDiet⟩)) := by
  decide

/-- Claim C1, amended: for organisms of identical diet flags and equal species
whose vitalities are both nonzero, `encounter` returns both originals unchanged
together with the offspring `o1.breed o2`. -/
theorem c1_same_kind_breeds {s : Type} [DecidableEq s] (o1 o2 : Organism s)
    (hd : o1.diet = o2.diet) (hs : o1.species = o2.species)
    (h1 : o1.vitality ≠ 0) (h2 : o2.vitality ≠ 0) :
    encounter o1 o2 = (o1, o2, some (o1.breed o2)) := by
  unfold encounter
  simp [Organism.is_dead, h1, h2, hd, hs]

/-- Claim C1, witness at two herbivores of species 0 with vitalities 5 and 7. -/
theorem c1_witness :
    encounter (⟨0, 5, herbivoreDiet⟩ : Organism Nat) ⟨0, 7, herbivoreDiet⟩ =
      (⟨0, 5, herbivoreDiet⟩, ⟨0, 7, herbivoreDiet⟩,
        some (Organism.breed (⟨0, 5, herbivoreDiet⟩ : Organism Nat) ⟨0, 7, herbivoreDiet⟩)) :=
  c1_same_kind_breeds _ _ rfl rfl (by decide) (by decide)

/-- Claim C5: when either organism has vitality 0, `encounter` returns both
unchanged and no offspring, whatever the diets, species and other vitality. -/
theorem c5_dead_encounter_unchanged {s : Type} [DecidableEq s]
    (o1 o2 : Organism s) (h : o1.vitality = 0 ∨ o2.vitality = 0) :
    encounter o1 o2 = (o1, o2, none) := by
  unfold encounter
  rcases h with h | h <;> simp [Organism.is_dead, h]

/-- Claim C5, witness at a dead carnivore meeting a live plant. -/
theorem c5_witness :
    encounter (⟨0, 0, carnivoreDiet⟩ : Organism Nat) ⟨1, 9, plantDiet⟩ =
      (⟨0, 0, carnivoreDiet⟩, ⟨1, 9, plantDiet⟩, none) :=
  c5_dead_encounter_unchanged _ _ (Or.inl rfl)

/-- Claim C3, counterexample: `uint64_t` addition wraps, so an omnivore of
maximal vitality absorbing a plant of vitality 1 does not end with the
unbounded sum of the two vitalities. -/
theorem c3_counterexample :
    (Organism.eat (⟨0, 2 ^ 64 - 1, omnivoreDiet⟩ : Organism Nat)
        ⟨1, 1, plantDiet⟩).vitality ≠ (2 ^ 64 - 1) + 1 := by
  decide

/-- Claim C3, amended: an organism whose diet permits eating plants, eating a
plant, keeps its species and gains the vitality of the plant modulo `2^64`. -/
theorem c3_eats_plant {s : Type} (self o : Organism s)
    (hc : self.diet.can_eat_plants = true) (hp : o.diet.is_plant = true) :
    self.eat o = ⟨self.species, (self.vitality + o.vitality) % U64, self.diet⟩ := by
  unfold Organism.eat can_eat add64
  simp [hp, hc]

/-- Claim C3, witness: an omnivore of vitality 10 eats a plant of vitality 5. -/
theorem c3_witness :
    Organism.eat (⟨0, 10, omnivoreDiet⟩ : Organism Nat) ⟨1, 5, plantDiet⟩ =
      ⟨0, (10 + 5) % U64, omnivoreDiet⟩ :=
  c3_eats_plant _ _ rfl rfl

/-- Claim C2: two organisms of different species, each permitted to eat the
kind of the other, with equal nonzero vitality, both die in `encounter` and no
offspring is produced. -/
theorem c2_mutual_predators_tie_both_die {s : Type} [DecidableEq s]
    (o1 o2 : Organism s) (hs : o1.species ≠ o2.species)
    (h12 : can_eat o1 o2 = true) (h21 : can_eat o2 o1 = true)
    (hv : o1.vitality = o2.vitality) (hnz : o1.vitality ≠ 0) :
    (encounter o1 o2).1.vitality = 0 ∧ (encounter o1 o2).2.1.vitality = 0 ∧
      (encounter o1 o2).2.2 = none := by
  obtain ⟨s1, v1, m1, p1⟩ := o1
  obtain ⟨s2, v2, m2, p2⟩ := o2
  cases m1 <;> cases p1 <;> cases m2 <;> cases p2 <;>
    simp_all [can_eat, Diet.is_plant, encounter, Organism.eat, Organism.is_dead,
      carnivoreDiet, omnivoreDiet, herbivoreDiet, plantDiet]

/-- Claim C2, witness: a carnivore and an omnivore of different species, both
of vitality 7. -/
theorem c2_witness :
    (encounter (⟨0, 7, carnivoreDiet⟩ : Organism Nat) ⟨1, 7, omnivoreDiet⟩).1.vitality = 0 ∧
      (encounter (⟨0, 7, carnivoreDiet⟩ : Organism Nat) ⟨1, 7, omnivoreDiet⟩).2.1.vitality = 0 ∧
      (encounter (⟨0, 7, carnivoreDiet⟩ : Organism Nat) ⟨1, 7, omnivoreDiet⟩).2.2 = none :=
  c2_mutual_predators_tie_both_die _ _ (by decide) (by decide) (by decide) rfl (by decide)

/-- Claim C4, counterexample: the win-over-animal branch adds in `uint64_t`,
so a carnivore of maximal vitality beating a carnivore of vitality 2 does not
end with the unbounded sum `self.vitality + other.vitality / 2`. -/
theorem c4_counterexample :
    (Organism.eat (⟨0, 2 ^ 64 - 1, carnivoreDiet⟩ : Organism Nat)
        ⟨1, 2, carnivoreDiet⟩).vitality ≠ (2 ^ 64 - 1) + 2 / 2 := by
  decide

/-- Claim C4, amended: against a non-plant whose kind `self` may eat, a
strictly greater vitality wins and yields `self.vitality + other.vitality / 2`
modulo `2^64`; otherwise the first branch does not return and the result is
either the death value or `self` unchanged. -/
theorem c4_eats_animal {s : Type} (self o : Organism s)
    (hc : can_eat self o = true) (hp : o.diet.is_plant = false) :
    (self.vitality > o.vitality →
      self.eat o = ⟨self.species, (self.vitality + o.vitality / 2) % U64, self.diet⟩) ∧
    (¬ self.vitality > o.vitality →
      self.eat o = ⟨self.species, 0, self.diet⟩ ∨ self.eat o = self) := by
  constructor
  · intro hv
    unfold Organism.eat add64
    simp [hc, hp, hv]
  · intro hv
    have hgt : decide (self.vitality > o.vitality) = false := by
      simpa using hv
    unfold Organism.eat
    simp only [hp, hgt, Bool.and_false, Bool.false_eq_true, if_false]
    split
    · exact Or.inl rfl
    · exact Or.inr rfl

/-- Claim C4, witness: a carnivore of vitality 10 eats a carnivore of
vitality 4 of another species; at equal vitalities 5 and 5 the first branch
falls through. -/
theorem c4_witness :
    (Organism.eat (⟨0, 10, carnivoreDiet⟩ : Organism Nat) ⟨1, 4, carnivoreDiet⟩ =
        ⟨0, (10 + 4 / 2) % U64, carnivoreDiet⟩) ∧
      (Organism.eat (⟨0, 5, carnivoreDiet⟩ : Organism Nat) ⟨1, 5, carnivoreDiet⟩ =
          ⟨0, 0, carnivoreDiet⟩ ∨
        Organism.eat (⟨0, 5, carnivoreDiet⟩ : Organism Nat) ⟨1, 5, carnivoreDiet⟩ =
          ⟨0, 5, carnivoreDiet⟩) :=
  ⟨(c4_eats_animal _ _ (by decide) (by decide)).1 (by decide),
    (c4_eats_animal _ _ (by decide) (by decide)).2 (by decide)⟩

/-- Claim C6, counterexample: for two herbivores of the same species neither
eat branch applies, yet `encounter` produces an offspring, because the
breeding branch fires before predation. -/
theorem c6_counterexample :
    eat_branch1 (⟨0, 3, herbivoreDiet⟩ : Organism Nat) ⟨0, 5, herbivoreDiet⟩ = false ∧
    eat_branch2 (⟨0, 3, herbivoreDiet⟩ : Organism Nat) ⟨0, 5, herbivoreDiet⟩ = false ∧
    eat_branch1 (⟨0, 5, herbivoreDiet⟩ : Organism Nat) ⟨0, 3, herbivoreDiet⟩ = false ∧
    eat_branch2 (⟨0, 5, herbivoreDiet⟩ : Organism Nat) ⟨0, 3, herbivoreDiet⟩ = false ∧
    (encounter (⟨0, 3, herbivoreDiet⟩ : Organism Nat) ⟨0, 5, herbivoreDiet⟩).2.2 ≠ none := by
  decide

/-- An organism for which neither raw branch condition of `eat` holds is
returned unchanged by `eat`. -/
lemma eat_no_branch_unchanged {s : Type} (self o : Organism s)
    (h1 : eat_branch1 self o = false) (h2 : eat_branch2 self o = false) :
    self.eat o = self := by
  unfold eat_branch1 at h1
  unfold eat_branch2 at h2
  unfold Organism.eat
  cases hce : can_eat self o <;> cases hoe : can_eat o self <;> simp_all
  omega

/-- Claim C6, amended: if neither branch 1 nor branch 2 of `eat` applies on
either side, each `eat` returns its receiver unchanged, and — provided the
pair is not a same-diet same-species breeding pair — `encounter` returns both
organisms unchanged with no offspring. -/
theorem c6_no_branch_encounter_unchanged {s : Type} [DecidableEq s]
    (o1 o2 : Organism s)
    (h12a : eat_branch1 o1 o2 = false) (h12b : eat_branch2 o1 o2 = false)
    (h21a : eat_branch1 o2 o1 = false) (h21b : eat_branch2 o2 o1 = false)
    (hbreed : ¬ (o1.diet = o2.diet ∧ o1.species = o2.species)) :
    o1.eat o2 = o1 ∧ o2.eat o1 = o2 ∧ encounter o1 o2 = (o1, o2, none) := by
  have e1 := eat_no_branch_unchanged o1 o2 h12a h12b
  have e2 := eat_no_branch_unchanged o2 o1 h21a h21b
  refine ⟨e1, e2, ?_⟩
  unfold encounter
  by_cases hdead : (o1.is_dead || o2.is_dead) = true
  · rw [if_pos hdead]
  · rw [if_neg hdead, if_neg hbreed, e1, e2]

/-- Claim C6, witness: the example of the spec, a carnivore and a herbivore of
different species with equal vitality 5. -/
theorem c6_witness :
    Organism.eat (⟨0, 5, carnivoreDiet⟩ : Organism Nat) ⟨1, 5, herbivoreDiet⟩ =
        ⟨0, 5, carnivoreDiet⟩ ∧
      Organism.eat (⟨1, 5, herbivoreDiet⟩ : Organism Nat) ⟨0, 5, carnivoreDiet⟩ =
        ⟨1, 5, herbivoreDiet⟩ ∧
      encounter (⟨0, 5, carnivoreDiet⟩ : Organism Nat) ⟨1, 5, herbivoreDiet⟩ =
        (⟨0, 5, carnivoreDiet⟩, ⟨1, 5, herbivoreDiet⟩, none) :=
  c6_no_branch_encounter_unchanged _ _ (by decide) (by decide) (by decide) (by decide)
    (by decide)

/-- Claim C7: `breed` keeps the species of the receiver and its vitality is
the floor of the average of the two vitalities; for `uint64_t` inputs the
result and every intermediate stay within the `uint64_t` range. -/
theorem c7_breed_midpoint {s : Type} (o1 o2 : Organism s)
    (h1 : o1.vitality < U64) (h2 : o2.vitality < U64) :
    (o1.breed o2).species = o1.species ∧
      (o1.breed o2).vitality =
        (min o1.vitality o2.vitality + max o1.vitality o2.vitality) / 2 ∧
      (o1.breed o2).vitality ≤ max o1.vitality o2.vitality ∧
      (o1.breed o2).vitality < U64 := by
  have hmid : (o1.breed o2).vitality = (o1.vitality + o2.vitality) / 2 := by
    show std_midpoint _ _ = _
    exact std_midpoint_min_max _ _
  refine ⟨rfl, ?_, ?_, ?_⟩
  · rw [hmid]; rcases Nat.le_total o1.vitality o2.vitality with h | h <;> omega
  · rw [hmid]; rcases Nat.le_total o1.vitality o2.vitality with h | h
    · rw [Nat.max_eq_right h]; omega
    · rw [Nat.max_eq_left h]; omega
  · rw [hmid]; omega

/-- Claim C7, witness: breeding vitalities 10 and 4 gives the midpoint 7. -/
theorem c7_witness :
    (Organism.breed (⟨0, 10, carnivoreDiet⟩ : Organism Nat) ⟨1, 4, herbivoreDiet⟩).species = 0 ∧
      (Organism.breed (⟨0, 10, carnivoreDiet⟩ : Organism Nat) ⟨1, 4, herbivoreDiet⟩).vitality =
        (min 10 4 + max 10 4) / 2 ∧
      (Organism.breed (⟨0, 10, carnivoreDiet⟩ : Organism Nat) ⟨1, 4, herbivoreDiet⟩).vitality ≤
        max 10 4 ∧
      (Organism.breed (⟨0, 10, carnivoreDiet⟩ : Organism Nat) ⟨1, 4, herbivoreDiet⟩).vitality <
        U64 :=
  c7_breed_midpoint _ _ (by decide) (by decide)

/-- Claim C8: the fold expression of `encounter_series` coincides with the
step-by-step reduction described by the spec, which keeps only the first
component of each `encounter`; on an empty sequence the protagonist is
returned unchanged. -/
theorem c8_series_is_fold {s : Type} [DecidableEq s] (p : Organism s)
    (xs : List (Organism s)) :
    encounter_series p xs = series_spec p xs ∧ encounter_series p [] = p := by
  constructor
  · induction xs generalizing p with
    | nil => rfl
    | cons x xs ih =>
        simpa [encounter_series, series_spec, org_plus, List.foldl] using ih (org_plus p x)
  · rfl

/-- Claim C9, counterexample: at the largest `uint64_t` vitalities, where the
naive sum of the two vitalities exceeds the range, `breed` still returns the
exact unbounded floor average — its midpoint computation does not wrap. -/
theorem c9_counterexample :
    (Organism.breed (⟨0, 2 ^ 64 - 1, carnivoreDiet⟩ : Organism Nat)
          ⟨1, 2 ^ 64 - 1, herbivoreDiet⟩).vitality =
        ((2 ^ 64 - 1) + (2 ^ 64 - 1)) / 2 ∧
      (2 ^ 64 - 1) + (2 ^ 64 - 1) ≥ U64 := by
  constructor
  · decide
  · decide

/-- Claim C9, amended: the additive branches of `eat` do wrap modulo `2^64`
(shown on the plant branch and on the win-over-animal branch at concrete
inputs whose true sums reach `2^64`), while the average of `breed` never
overflows: for every pair of organisms it equals the exact unbounded floor
average of the two vitalities. -/
theorem c9_overflow_behaviour :
    (Organism.eat (⟨0, 2 ^ 64 - 1, omnivoreDiet⟩ : Organism Nat)
        ⟨1, 1, plantDiet⟩).vitality = ((2 ^ 64 - 1) + 1) % U64 ∧
      (Organism.eat (⟨0, 2 ^ 64 - 1, omnivoreDiet⟩ : Organism Nat)
          ⟨1, 1, plantDiet⟩).vitality ≠ (2 ^ 64 - 1) + 1 ∧
      (Organism.eat (⟨0, 2 ^ 64 - 1, carnivoreDiet⟩ : Organism Nat)
          ⟨1, 2, carnivoreDiet⟩).vitality = ((2 ^ 64 - 1) + 2 / 2) % U64 ∧
      (Organism.eat (⟨0, 2 ^ 64 - 1, carnivoreDiet⟩ : Organism Nat)
          ⟨1, 2, carnivoreDiet⟩).vitality ≠ (2 ^ 64 - 1) + 2 / 2 ∧
      (∀ (s : Type) (o1 o2 : Organism s),
        (o1.breed o2).vitality = (o1.vitality + o2.vitality) / 2) := by
  refine ⟨by decide, by decide, by decide, by decide, ?_⟩
  intro s o1 o2
  show std_midpoint _ _ = _
  exact std_midpoint_min_max _ _

/-- Every branch of `eat` keeps the species of the receiver. -/
lemma eat_species {s : Type} (self o : Organism s) :
    (self.eat o).species = self.species := by
  unfold Organism.eat
  dsimp only
  split
  · rfl
  · split
    · rfl
    · split <;> rfl

/-- Claim C10: `eat` and `breed` keep the species of the receiver, and the
first and second components of `encounter` keep the species of the first and
the second argument respectively. -/
theorem c10_species_preserved {s : Type} [DecidableEq s] (o1 o2 : Organism s) :
    (o1.eat o2).species = o1.species ∧ (o1.breed o2).species = o1.species ∧
      (encounter o1 o2).1.species = o1.species ∧
      (encounter o1 o2).2.1.species = o2.species := by
  refine ⟨eat_species o1 o2, rfl, ?_, ?_⟩ <;>
    · unfold encounter
      split
      · rfl
      · split
        · rfl
        · simp [eat_species]
